import Mathlib

/-!
Verification of the label layer of `Source/Graph/Graph.Label.js`.

The file shallowly embeds the retained-mode label machinery shared by the
`Graph.Label.HTML` and `Graph.Label.SVG` classes (which both implement
`Graph.Label.DOM`): the identity-keyed label cache, container resolution,
label creation, disposal, visibility toggling, the bounds check, and the
HTML variant's `prepareForAnimation`.

Modelling conventions:
- DOM elements are identified by `Nat` identities; `document.getElementById`
  is a map `String → Option Nat`; an element's inline style is a map
  `String → String`.
- JS numbers are embedded as rationals (`Rat`); the `>> 0` operation is
  embedded as ToInt32: truncation toward zero (`Int.tdiv` of numerator by
  denominator) followed by the wrap into the signed 32-bit range.
- The injected hooks `onCreateLabel` / `onBeforeAnimateLabel` and the DOM
  mutations relevant to ordering are recorded as events in a trace; the
  hooks themselves are external callbacks whose own effects are not part of
  this layer.
- Fallible operations (those that would throw a TypeError in JS, e.g.
  `container.appendChild` when the configured container does not resolve)
  return `Option`.
-/

/-- Point-update of a one-argument function, used for the
`document.getElementById` map and the `parentNode` map. -/
def fupd (f : Nat → Option Nat) (a : Nat) (b : Option Nat) : Nat → Option Nat :=
  fun x => if x = a then b else f x

/-- Point-update of the `byId` map at a string key. -/
def supd (f : String → Option Nat) (a : String) (b : Option Nat) : String → Option Nat :=
  fun x => if x = a then b else f x

/-- Point-update of the per-element style maps: set style key `k` of element
`e` to `v`. -/
def fupd2 (f : Nat → String → String) (e : Nat) (k v : String) : Nat → String → String :=
  fun e' k' => if e' = e ∧ k' = k then v else f e' k'

/-- JS object assignment `labels[k] = v`: replace the entry of key `k` in
place if the key is present, otherwise append it (JS objects keep insertion
order and hold at most one entry per key). -/
def setEntry (l : List (String × Option Nat)) (k : String) (v : Option Nat) :
    List (String × Option Nat) :=
  match l with
  | [] => [(k, v)]
  | (k', v') :: rest => if k' = k then (k, v) :: rest else (k', v') :: setEntry rest k v

/-- JS `delete labels[k]`. -/
def eraseKey (l : List (String × Option Nat)) (k : String) : List (String × Option Nat) :=
  l.filter (fun p => !(p.1 == k))

/-- Boolean membership of a string in a list of keys. -/
def keyIn (ks : List String) (k : String) : Bool :=
  ks.any (fun k' => k' == k)

/-- Events recording the externally observable steps of the label layer:
identity/class assignment, attachment under a parent, the two injected
hooks, cache stores, and `TransitionEnd` listener registration. -/
inductive Event where
  | assignId (elem : Nat) (id : String)
  | assignClass (elem : Nat) (cls : String)
  | attach (child parent : Nat)
  | createHook (id : String) (elem : Nat)
  | beforeHook (id : String) (elem : Nat)
  | store (id : String) (elem : Nat)
  | addTransitionEnd (elem : Nat)
deriving DecidableEq

/-- State of one `Graph.Label.DOM` renderer instance together with the
document it works in.  `labels` is the `this.labels` hash (a JS object:
association list in insertion order, keys unique, values possibly `null`);
`byId` is `document.getElementById`; `parentNode` gives each element's
parent (if attached); `styles` gives each element's inline style map;
`labelContainer` is the memoized container (`false` initially, embedded as
`none`); `labelsHidden` is the flag set by `hideLabels`; `nextElem`
allocates fresh element identities for `document.createElement`;
`trace` records hook and DOM-mutation events in execution order. -/
@[ext] structure DomState where
  labels : List (String × Option Nat)
  byId : String → Option Nat
  parentNode : Nat → Option Nat
  styles : Nat → String → String
  labelContainer : Option Nat
  labelsHidden : Bool
  nextElem : Nat
  trace : List Event

/-- The recognized configuration options of the label layer:
`labelContainer` (id of the host container element) and `Label.useCSS3`. -/
structure Config where
  labelContainer : String
  useCSS3 : Bool

/-- The per-node data consumed by the embedded operations: the node id and
the geometry/opacity accessors used by `prepareForAnimation`
(`getPos('start'/'end').getc(true)`, `getData('width'/'height',
'start'/'end')`, `getData('alpha')`, `getData('alpha', 'end')`). -/
structure LNode where
  id : String
  posStartX : Rat
  posStartY : Rat
  posEndX : Rat
  posEndY : Rat
  widthStart : Rat
  widthEnd : Rat
  heightStart : Rat
  heightEnd : Rat
  alpha : Rat
  alphaEnd : Rat

/-- A `{width, height}` size as returned by `canvas.getSize()`. -/
structure Size where
  width : Rat
  height : Rat

/-- The canvas collaborator: only its current size is consumed here. -/
structure Canvas where
  size : Size

/-- `canvas.getSize()`. -/
def Canvas.getSize (c : Canvas) : Size := c.size

/-- A 2-D point (duck-typed `{x, y}` in the source). -/
structure Pos where
  x : Rat
  y : Rat

/-- The animation options consumed by `prepareForAnimation`
(`opt.duration`; the `opt.onBeforeAnimateLabel` hook is recorded as a
trace event). -/
structure AnimOpt where
  duration : Nat

/-- JS `x >> 0` (ToInt32): truncate the number toward zero (`Int.tdiv`
truncates toward zero, unlike this toolchain's Euclidean `/`), reduce
modulo `2 ^ 32`, and reinterpret the residue as a signed 32-bit value. -/
def jsShr0 (q : Rat) : Int :=
  let t := Int.tdiv q.num (q.den : Int)
  let m := t % (2 ^ 32 : Int)
  if m < 2 ^ 31 then m else m - 2 ^ 32

/-- Value of `getLabelContainer` without its memoization side effect:
`this.labelContainer ? this.labelContainer :
document.getElementById(this.viz.config.labelContainer)`. -/
def resolveContainer (cfg : Config) (s : DomState) : Option Nat :=
  match s.labelContainer with
  | some c => some c
  | none => s.byId cfg.labelContainer

/-- `Graph.Label.DOM.getLabelContainer`: lazily resolve and memoize the
label container. -/
def getLabelContainer (cfg : Config) (s : DomState) : Option Nat × DomState :=
  (resolveContainer cfg s, { s with labelContainer := resolveContainer cfg s })

/-- `Graph.Label.DOM.getLabel`: if the cache holds a non-null element for
`id` return it; otherwise query `document.getElementById(id)` and memoize
the (possibly null) result. -/
def getLabel (s : DomState) (id : String) : Option Nat × DomState :=
  match s.labels.lookup id with
  | some (some e) => (some e, s)
  | _ => (s.byId id, { s with labels := setEntry s.labels id (s.byId id) })

/-- `elem.style[k] = v`. -/
def setStyle (s : DomState) (e : Nat) (k v : String) : DomState :=
  { s with styles := fupd2 s.styles e k v }

/-- Creation branch of `Graph.Label.HTML.getOrCreateLabel`: create a `div`,
resolve the container, assign `tag.id = id`, `tag.className = 'node'`,
`tag.style.position = 'absolute'`, invoke `this.viz.config.onCreateLabel`,
append the element under the container, and store it in `this.labels`.
The trace records the source's statement order: the creation hook runs
before `container.appendChild(tag)`.  A missing container makes
`container.appendChild` throw in JS, embedded as `none`. -/
def createLabelHTML (cfg : Config) (s : DomState) (n : LNode) : Option (Nat × DomState) :=
  let e := s.nextElem
  match resolveContainer cfg s with
  | none => none
  | some c =>
    some (e,
      { labels := setEntry s.labels n.id (some e),
        byId := supd s.byId n.id (some e),
        parentNode := fupd s.parentNode e (some c),
        styles := fupd2 s.styles e "position" "absolute",
        labelContainer := some c,
        labelsHidden := s.labelsHidden,
        nextElem := s.nextElem + 1,
        trace := s.trace ++ [Event.assignId e n.id, Event.assignClass e "node",
                             Event.createHook n.id e, Event.attach e c,
                             Event.store n.id e] })

/-- Creation branch of `Graph.Label.SVG.getOrCreateLabel`: create an
`svg:text` element with a nested `svg:tspan` child, resolve the container,
set the `id` and `class` attributes, append the element under the
container, invoke `this.viz.controller.onCreateLabel`, and store it in
`this.labels`.  The trace records the source's statement order: here the
creation hook runs after `container.appendChild(tag)`. -/
def createLabelSVG (cfg : Config) (s : DomState) (n : LNode) : Option (Nat × DomState) :=
  let e := s.nextElem
  let tspan := s.nextElem + 1
  match resolveContainer cfg s with
  | none => none
  | some c =>
    some (e,
      { labels := setEntry s.labels n.id (some e),
        byId := supd s.byId n.id (some e),
        parentNode := fupd (fupd s.parentNode tspan (some e)) e (some c),
        styles := s.styles,
        labelContainer := some c,
        labelsHidden := s.labelsHidden,
        nextElem := s.nextElem + 2,
        trace := s.trace ++ [Event.assignId e n.id, Event.assignClass e "node",
                             Event.attach e c, Event.createHook n.id e,
                             Event.store n.id e] })

/-- Shared shape of both `getOrCreateLabel` variants:
`var id = node.id, tag = this.getLabel(id);
if(!tag && !(tag = document.getElementById(id))) [create]; return tag;`. -/
def getOrCreateWith (create : Config → DomState → LNode → Option (Nat × DomState))
    (cfg : Config) (s : DomState) (n : LNode) : Option (Nat × DomState) :=
  match getLabel s n.id with
  | (some e, s1) => some (e, s1)
  | (none, s1) =>
    match s1.byId n.id with
    | some e => some (e, s1)
    | none => create cfg s1 n

/-- `Graph.Label.HTML.getOrCreateLabel`. -/
def getOrCreateLabelHTML (cfg : Config) (s : DomState) (n : LNode) : Option (Nat × DomState) :=
  getOrCreateWith createLabelHTML cfg s n

/-- `Graph.Label.SVG.getOrCreateLabel`. -/
def getOrCreateLabelSVG (cfg : Config) (s : DomState) (n : LNode) : Option (Nat × DomState) :=
  getOrCreateWith createLabelSVG cfg s n

/-- `elem.parentNode.removeChild(elem)`: detach `e`, after which
`document.getElementById` no longer finds it. -/
def removeElem (s : DomState) (e : Nat) : DomState :=
  { s with parentNode := fupd s.parentNode e none,
           byId := fun k => if s.byId k = some e then none else s.byId k }

/-- `Graph.Label.DOM.disposeLabel`: `var elem = this.getLabel(id);
if(elem && elem.parentNode) elem.parentNode.removeChild(elem);`.
Total: a missing or unattached element is silently ignored. -/
def disposeLabel (s : DomState) (id : String) : DomState :=
  match getLabel s id with
  | (some e, s1) => if (s1.parentNode e).isSome then removeElem s1 e else s1
  | (none, s1) => s1

/-- One iteration of the `for(var id in this.labels)` loop body of
`clearLabels`: `if (force || !this.viz.graph.hasNode(id)) {
this.disposeLabel(id); delete this.labels[id]; }`. -/
def clearStep (hasNode : String → Bool) (force : Bool) (s : DomState) (id : String) : DomState :=
  if force || !hasNode id then
    let s1 := disposeLabel s id
    { s1 with labels := eraseKey s1.labels id }
  else s

/-- `Graph.Label.DOM.clearLabels`: sweep every cached id, disposing and
deleting the entries selected by `force || !graph.hasNode(id)`. -/
def clearLabels (hasNode : String → Bool) (force : Bool) (s : DomState) : DomState :=
  (s.labels.map Prod.fst).foldl (clearStep hasNode force) s

/-- `Graph.Label.DOM.hideLabels`: resolve the container and set its
`display` style to `'none'` or `''`, then record the flag in
`this.labelsHidden`.  A missing container makes `container.style` throw in
JS, embedded as `none`. -/
def hideLabels (cfg : Config) (hide : Bool) (s : DomState) : Option DomState :=
  match getLabelContainer cfg s with
  | (none, _) => none
  | (some c, s1) =>
    some { setStyle s1 c "display" (if hide then "none" else "") with labelsHidden := hide }

/-- `Graph.Label.DOM.fitsInCanvas`. -/
def fitsInCanvas (pos : Pos) (canvas : Canvas) : Bool :=
  let size := canvas.getSize
  if pos.x ≥ size.width ∨ pos.x < 0 ∨ pos.y ≥ size.height ∨ pos.y < 0 then false else true

/-- `Graph.Label.HTML.css3Props`. -/
def css3Props : List String := ["width", "height", "top", "left", "color", "opacity"]

/-- `Graph.Label.HTML.prefixes`. -/
def prefixes : List String := ["webkit", "moz", "o", ""]

/-- `Graph.Label.HTML.prefixesStyles`. -/
def prefixesStyles : List String := ["-webkit-", "-moz-", "-o-", ""]

/-- The `$.each(this.prefixesStyles, ...)` loop shared by both branches of
`prepareForAnimation`: for every vendor prefix set `transition-property`
to `propVal`, `transition-duration` to the configured duration,
`transition-delay` to the fixed `'200ms'`, and `transition-timing-function`
to `'ease-in-out'`. -/
def setTransitionProps (s : DomState) (e : Nat) (propVal : String) (dur : Nat) : DomState :=
  prefixesStyles.foldl (fun st p =>
    setStyle (setStyle (setStyle (setStyle st
      e (p ++ "transition-property") propVal)
      e (p ++ "transition-duration") (toString dur ++ "ms"))
      e (p ++ "transition-delay") "200ms")
      e (p ++ "transition-timing-function") "ease-in-out") s

/-- `Graph.Label.HTML.prepareForAnimation(node, modes, opt)`: early return
when `useCSS3` is off; otherwise resolve the label via `getOrCreateLabel`,
take the opacity branch when start and end alpha differ (registering
`TransitionEnd` listeners when fading from 1 to 0), else the position/size
branch when geometry differs, and finally invoke
`opt.onBeforeAnimateLabel(label, node)`.  The `modes` argument is read into
`nodeProps` by the source but never used, so it is not a parameter here. -/
def prepareForAnimationHTML (cfg : Config) (canvas : Canvas) (n : LNode) (opt : AnimOpt)
    (s : DomState) : Option DomState :=
  if cfg.useCSS3 then
    match getOrCreateLabelHTML cfg s n with
    | none => none
    | some (e, s1) =>
      let size := canvas.getSize
      let s2 :=
        if n.alpha ≠ n.alphaEnd then
          let sa := setStyle s1 e "visibility" "visible"
          let sa := setStyle sa e "opacity" (toString n.alpha)
          let sa := setTransitionProps sa e "opacity" opt.duration
          let sa := setStyle sa e "opacity" (toString n.alphaEnd)
          if n.alphaEnd = 0 ∧ n.alpha = 1 then
            { sa with trace := sa.trace ++ prefixes.map (fun _ => Event.addTransitionEnd e) }
          else sa
        else if n.posEndX ≠ n.posStartX ∨ n.posEndY ≠ n.posStartY ∨
                n.widthStart ≠ n.widthEnd ∨ n.heightStart ≠ n.heightEnd then
          let sb := setTransitionProps s1 e (String.intercalate "," css3Props) opt.duration
          let sb := setStyle sb e "top" (toString (jsShr0 (n.posEndY + size.height / 2)) ++ "px")
          let sb := setStyle sb e "left" (toString (jsShr0 (n.posEndX + size.width / 2)) ++ "px")
          let sb := setStyle sb e "width" (toString (jsShr0 n.widthEnd) ++ "px")
          setStyle sb e "height" (toString (jsShr0 n.heightEnd) ++ "px")
        else s1
      some { s2 with trace := s2.trace ++ [Event.beforeHook n.id e] }
  else some s

/-- Recognizer for `onCreateLabel` events of a given id. -/
def isCreateHookFor (id : String) : Event → Bool
  | Event.createHook i _ => i == id
  | _ => false

/-- Recognizer for `onBeforeAnimateLabel` events of a given id. -/
def isBeforeHookFor (id : String) : Event → Bool
  | Event.beforeHook i _ => i == id
  | _ => false

/-- Recognizer for any `onCreateLabel` event. -/
def isCreateHookEv : Event → Bool
  | Event.createHook _ _ => true
  | _ => false

/-- Recognizer for any attachment event. -/
def isAttachEv : Event → Bool
  | Event.attach _ _ => true
  | _ => false

/-- Number of `onCreateLabel` invocations for `id` recorded in a trace. -/
def countCreateHook (t : List Event) (id : String) : Nat :=
  t.countP (isCreateHookFor id)

/-- Number of `onBeforeAnimateLabel` invocations for `id` recorded in a
trace. -/
def countBeforeHook (t : List Event) (id : String) : Nat :=
  t.countP (isBeforeHookFor id)

/-- The creation hook fires after the attachment in a trace: the first
attach event precedes the first creation-hook event. -/
def hookAfterAttach (t : List Event) : Prop :=
  t.findIdx isAttachEv < t.findIdx isCreateHookEv

instance (t : List Event) : Decidable (hookAfterAttach t) := by
  unfold hookAfterAttach; infer_instance

/-- Iterate a `getOrCreateLabel` variant `k` times from a state,
propagating failure. -/
def gocIter (goc : DomState → Option (Nat × DomState)) : Nat → DomState → Option DomState
  | 0, s => some s
  | k + 1, s =>
    match goc s with
    | none => none
    | some (_, s1) => gocIter goc k s1

/-- An element appearing in the document under `id` at a later time,
externally to the label layer (an externally pre-authored element). -/
def extUpdate (s : DomState) (id : String) (e : Nat) : DomState :=
  { s with byId := supd s.byId id (some e) }

theorem lookup_setEntry_self (l : List (String × Option Nat)) (k : String) (v : Option Nat) :
    (setEntry l k v).lookup k = some v := by
  induction l with
  | nil => simp [setEntry, List.lookup]
  | cons hd tl ih =>
    obtain ⟨k', v'⟩ := hd
    by_cases h : k' = k
    · simp [setEntry, h, List.lookup]
    · have hkk : (k == k') = false := beq_eq_false_iff_ne.mpr (Ne.symm h)
      simp [setEntry, h, List.lookup, hkk, ih]

theorem getLabel_hit {s : DomState} {id : String} {e : Nat}
    (h : s.labels.lookup id = some (some e)) : getLabel s id = (some e, s) := by
  simp [getLabel, h]

theorem getLabel_miss {s : DomState} {id : String}
    (h : (s.labels.lookup id).getD none = none) :
    getLabel s id = (s.byId id, { s with labels := setEntry s.labels id (s.byId id) }) := by
  unfold getLabel
  cases hl : s.labels.lookup id with
  | none => rfl
  | some o =>
    cases o with
    | none => rfl
    | some e => rw [hl] at h; simp at h

theorem getLabel_some_lookup {s s1 : DomState} {id : String} {e : Nat}
    (h : getLabel s id = (some e, s1)) : s1.labels.lookup id = some (some e) := by
  unfold getLabel at h
  cases hl : s.labels.lookup id with
  | none =>
    rw [hl] at h
    simp at h
    obtain ⟨he, hs⟩ := h
    rw [← hs, ← he]
    exact lookup_setEntry_self _ _ _
  | some o =>
    cases o with
    | none =>
      rw [hl] at h
      simp at h
      obtain ⟨he, hs⟩ := h
      rw [← hs, ← he]
      exact lookup_setEntry_self _ _ _
    | some e' =>
      rw [hl] at h
      simp at h
      obtain ⟨he, hs⟩ := h
      rw [← hs, ← he, hl]

theorem getLabel_none {s s1 : DomState} {id : String}
    (h : getLabel s id = (none, s1)) :
    s.byId id = none ∧ s1 = { s with labels := setEntry s.labels id none } := by
  unfold getLabel at h
  cases hl : s.labels.lookup id with
  | none =>
    rw [hl] at h
    simp at h
    obtain ⟨he, hs⟩ := h
    refine ⟨he, ?_⟩
    rw [← hs, he]
  | some o =>
    cases o with
    | none =>
      rw [hl] at h
      simp at h
      obtain ⟨he, hs⟩ := h
      refine ⟨he, ?_⟩
      rw [← hs, he]
    | some e' =>
      rw [hl] at h
      simp at h

theorem createLabelHTML_lookup {cfg : Config} {s s1 : DomState} {n : LNode} {t : Nat}
    (h : createLabelHTML cfg s n = some (t, s1)) :
    s1.labels.lookup n.id = some (some t) := by
  unfold createLabelHTML at h
  cases hc : resolveContainer cfg s with
  | none => rw [hc] at h; simp at h
  | some c =>
    rw [hc] at h
    simp at h
    obtain ⟨ht, hs⟩ := h
    rw [← hs, ← ht]
    exact lookup_setEntry_self _ _ _

theorem createLabelSVG_lookup {cfg : Config} {s s1 : DomState} {n : LNode} {t : Nat}
    (h : createLabelSVG cfg s n = some (t, s1)) :
    s1.labels.lookup n.id = some (some t) := by
  unfold createLabelSVG at h
  cases hc : resolveContainer cfg s with
  | none => rw [hc] at h; simp at h
  | some c =>
    rw [hc] at h
    simp at h
    obtain ⟨ht, hs⟩ := h
    rw [← hs, ← ht]
    exact lookup_setEntry_self _ _ _

theorem getOrCreateWith_hit (create : Config → DomState → LNode → Option (Nat × DomState))
    (cfg : Config) {s : DomState} {n : LNode} {e : Nat}
    (h : s.labels.lookup n.id = some (some e)) :
    getOrCreateWith create cfg s n = some (e, s) := by
  unfold getOrCreateWith
  rw [getLabel_hit h]

theorem getOrCreateWith_lookup (create : Config → DomState → LNode → Option (Nat × DomState))
    {cfg : Config} {s s1 : DomState} {n : LNode} {t : Nat}
    (hc : ∀ s' t' s1', create cfg s' n = some (t', s1') → s1'.labels.lookup n.id = some (some t'))
    (h : getOrCreateWith create cfg s n = some (t, s1)) :
    s1.labels.lookup n.id = some (some t) := by
  unfold getOrCreateWith at h
  cases hg : getLabel s n.id with
  | mk r sA =>
    cases r with
    | some e =>
      rw [hg] at h
      simp at h
      obtain ⟨he, hs⟩ := h
      rw [← hs, ← he]
      exact getLabel_some_lookup hg
    | none =>
      have hn := getLabel_none hg
      have hb : sA.byId n.id = none := by rw [hn.2]; exact hn.1
      rw [hg] at h
      simp only [hb] at h
      exact hc sA t s1 h

/-- C1: referential stability of `getOrCreateLabel` — two consecutive calls
for the same node id, with no intervening disposal, return the identical
element, in both the HTML and SVG variants. -/
theorem getOrCreateLabel_stable (cfg : Config) (s : DomState) (n : LNode) :
    (∀ t1 t2 : Nat, ∀ s1 s2 : DomState,
      getOrCreateLabelHTML cfg s n = some (t1, s1) →
      getOrCreateLabelHTML cfg s1 n = some (t2, s2) → t2 = t1) ∧
    (∀ t1 t2 : Nat, ∀ s1 s2 : DomState,
      getOrCreateLabelSVG cfg s n = some (t1, s1) →
      getOrCreateLabelSVG cfg s1 n = some (t2, s2) → t2 = t1) := by
  constructor
  · intro t1 t2 s1 s2 h1 h2
    have hl : s1.labels.lookup n.id = some (some t1) :=
      getOrCreateWith_lookup createLabelHTML (fun _ _ _ h => createLabelHTML_lookup h) h1
    have := getOrCreateWith_hit createLabelHTML cfg hl
    rw [getOrCreateLabelHTML] at h2
    rw [this] at h2
    simp at h2
    exact h2.1.symm
  · intro t1 t2 s1 s2 h1 h2
    have hl : s1.labels.lookup n.id = some (some t1) :=
      getOrCreateWith_lookup createLabelSVG (fun _ _ _ h => createLabelSVG_lookup h) h1
    have := getOrCreateWith_hit createLabelSVG cfg hl
    rw [getOrCreateLabelSVG] at h2
    rw [this] at h2
    simp at h2
    exact h2.1.symm

theorem goc_html_create {cfg : Config} {s : DomState} {n : LNode} {c : Nat}
    (h1 : (s.labels.lookup n.id).getD none = none)
    (h2 : s.byId n.id = none)
    (h3 : resolveContainer cfg s = some c) :
    getOrCreateLabelHTML cfg s n = some (s.nextElem,
      { labels := setEntry (setEntry s.labels n.id none) n.id (some s.nextElem),
        byId := supd s.byId n.id (some s.nextElem),
        parentNode := fupd s.parentNode s.nextElem (some c),
        styles := fupd2 s.styles s.nextElem "position" "absolute",
        labelContainer := some c,
        labelsHidden := s.labelsHidden,
        nextElem := s.nextElem + 1,
        trace := s.trace ++ [Event.assignId s.nextElem n.id,
                             Event.assignClass s.nextElem "node",
                             Event.createHook n.id s.nextElem,
                             Event.attach s.nextElem c,
                             Event.store n.id s.nextElem] }) := by
  have hA : resolveContainer cfg { s with labels := setEntry s.labels n.id none } = some c := h3
  unfold getOrCreateLabelHTML getOrCreateWith
  rw [getLabel_miss h1, h2]
  simp only [h2, createLabelHTML, hA]

theorem goc_svg_create {cfg : Config} {s : DomState} {n : LNode} {c : Nat}
    (h1 : (s.labels.lookup n.id).getD none = none)
    (h2 : s.byId n.id = none)
    (h3 : resolveContainer cfg s = some c) :
    getOrCreateLabelSVG cfg s n = some (s.nextElem,
      { labels := setEntry (setEntry s.labels n.id none) n.id (some s.nextElem),
        byId := supd s.byId n.id (some s.nextElem),
        parentNode := fupd (fupd s.parentNode (s.nextElem + 1) (some s.nextElem))
                        s.nextElem (some c),
        styles := s.styles,
        labelContainer := some c,
        labelsHidden := s.labelsHidden,
        nextElem := s.nextElem + 2,
        trace := s.trace ++ [Event.assignId s.nextElem n.id,
                             Event.assignClass s.nextElem "node",
                             Event.attach s.nextElem c,
                             Event.createHook n.id s.nextElem,
                             Event.store n.id s.nextElem] }) := by
  have hA : resolveContainer cfg { s with labels := setEntry s.labels n.id none } = some c := h3
  unfold getOrCreateLabelSVG getOrCreateWith
  rw [getLabel_miss h1, h2]
  simp only [h2, createLabelSVG, hA]

theorem gocIter_fixed {goc : DomState → Option (Nat × DomState)} {s1 : DomState} {e : Nat}
    (h : goc s1 = some (e, s1)) : ∀ k, gocIter goc k s1 = some s1 := by
  intro k
  induction k with
  | zero => rfl
  | succ k ih => simp [gocIter, h, ih]

/-- The initial state of a renderer instance over an empty document:
`labelsHidden: false`, `labelContainer: false`, `labels: \x7b\x7d`. -/
def emptyState : DomState :=
  { labels := [], byId := fun _ => none, parentNode := fun _ => none,
    styles := fun _ _ => "", labelContainer := none, labelsHidden := false,
    nextElem := 0, trace := [] }

/-- A renderer over a document holding exactly the configured label
container: element identity 100 registered under id `label-container`. -/
def docState : DomState :=
  { emptyState with byId := fun k => if k = "label-container" then some 100 else none }

/-- A configuration naming the container of `docState`, with `useCSS3` on. -/
def cfg0 : Config :=
  { labelContainer := "label-container", useCSS3 := true }

/-- A sample node whose start and end geometry differ while its opacity is
constant. -/
def node1 : LNode :=
  { id := "n1", posStartX := 0, posStartY := 0, posEndX := 10, posEndY := 20,
    widthStart := 30, widthEnd := 40, heightStart := 8, heightEnd := 16,
    alpha := 1, alphaEnd := 1 }

/-- The state after the HTML variant creates the label of `node1` from
`docState`. -/
def s1Html : DomState :=
  ((getOrCreateLabelHTML cfg0 docState node1).getD (0, emptyState)).2

/-- The state after the SVG variant creates the label of `node1` from
`docState`. -/
def s1Svg : DomState :=
  ((getOrCreateLabelSVG cfg0 docState node1).getD (0, emptyState)).2

theorem getOrCreateLabel_stable_witness :
    getOrCreateLabelHTML cfg0 docState node1 = some (0, s1Html) ∧
    getOrCreateLabelHTML cfg0 s1Html node1 = some (0, s1Html) ∧
    getOrCreateLabelSVG cfg0 docState node1 = some (0, s1Svg) ∧
    getOrCreateLabelSVG cfg0 s1Svg node1 = some (0, s1Svg) ∧
    (0 : Nat) = 0 ∧ (0 : Nat) = 0 :=
  ⟨rfl, rfl, rfl, rfl,
   (getOrCreateLabel_stable cfg0 docState node1).1 0 0 s1Html s1Html rfl rfl,
   (getOrCreateLabel_stable cfg0 docState node1).2 0 0 s1Svg s1Svg rfl rfl⟩

theorem getOrCreateLabelHTML_hit {cfg : Config} {s s1 : DomState} {n : LNode} {e : Nat}
    (h : getOrCreateLabelHTML cfg s n = some (e, s1)) :
    getOrCreateLabelHTML cfg s1 n = some (e, s1) := by
  have hl : s1.labels.lookup n.id = some (some e) :=
    getOrCreateWith_lookup createLabelHTML (fun _ _ _ hh => createLabelHTML_lookup hh) h
  exact getOrCreateWith_hit createLabelHTML cfg hl

theorem getOrCreateLabelSVG_hit {cfg : Config} {s s1 : DomState} {n : LNode} {e : Nat}
    (h : getOrCreateLabelSVG cfg s n = some (e, s1)) :
    getOrCreateLabelSVG cfg s1 n = some (e, s1) := by
  have hl : s1.labels.lookup n.id = some (some e) :=
    getOrCreateWith_lookup createLabelSVG (fun _ _ _ hh => createLabelSVG_lookup hh) h
  exact getOrCreateWith_hit createLabelSVG cfg hl

/-- C2: the `onCreateLabel` hook fires exactly once per id between the
creation of that id's label element and its disposal: the creating
`getOrCreateLabel` call records exactly one creation-hook event, and any
number of further `getOrCreateLabel` calls for the same node (as issued by
repeated `plotLabel` calls) leave the state — hence the hook count —
unchanged, in both the HTML and SVG variants. -/
theorem onCreateLabel_exactly_once {cfg : Config} {s : DomState} {n : LNode} {c : Nat}
    (h1 : (s.labels.lookup n.id).getD none = none)
    (h2 : s.byId n.id = none)
    (h3 : resolveContainer cfg s = some c) :
    (∀ e : Nat, ∀ s1 : DomState, getOrCreateLabelHTML cfg s n = some (e, s1) →
      countCreateHook s1.trace n.id = countCreateHook s.trace n.id + 1 ∧
      ∀ k, gocIter (fun st => getOrCreateLabelHTML cfg st n) k s1 = some s1) ∧
    (∀ e : Nat, ∀ s1 : DomState, getOrCreateLabelSVG cfg s n = some (e, s1) →
      countCreateHook s1.trace n.id = countCreateHook s.trace n.id + 1 ∧
      ∀ k, gocIter (fun st => getOrCreateLabelSVG cfg st n) k s1 = some s1) := by
  constructor
  · intro e s1 h
    refine ⟨?_, gocIter_fixed (getOrCreateLabelHTML_hit h)⟩
    rw [goc_html_create h1 h2 h3] at h
    simp at h
    rw [← h.2]
    simp [countCreateHook, List.countP_append, List.countP_cons, isCreateHookFor]
  · intro e s1 h
    refine ⟨?_, gocIter_fixed (getOrCreateLabelSVG_hit h)⟩
    rw [goc_svg_create h1 h2 h3] at h
    simp at h
    rw [← h.2]
    simp [countCreateHook, List.countP_append, List.countP_cons, isCreateHookFor]

theorem onCreateLabel_exactly_once_witness :
    countCreateHook s1Html.trace "n1" = countCreateHook docState.trace "n1" + 1 ∧
    gocIter (fun st => getOrCreateLabelHTML cfg0 st node1) 3 s1Html = some s1Html ∧
    countCreateHook s1Svg.trace "n1" = countCreateHook docState.trace "n1" + 1 ∧
    gocIter (fun st => getOrCreateLabelSVG cfg0 st node1) 3 s1Svg = some s1Svg :=
  ⟨((@onCreateLabel_exactly_once cfg0 docState node1 100
      rfl (by decide) (by decide)).1 0 s1Html rfl).1,
   ((@onCreateLabel_exactly_once cfg0 docState node1 100
      rfl (by decide) (by decide)).1 0 s1Html rfl).2 3,
   ((@onCreateLabel_exactly_once cfg0 docState node1 100
      rfl (by decide) (by decide)).2 0 s1Svg rfl).1,
   ((@onCreateLabel_exactly_once cfg0 docState node1 100
      rfl (by decide) (by decide)).2 0 s1Svg rfl).2 3⟩

/-- C8 counterexample: in the HTML variant, the creation steps recorded for
a concrete fresh node show the `onCreateLabel` hook firing BEFORE the
element is attached under the container, so the claimed
hook-after-attachment order is false for the HTML variant. -/
theorem creation_order_counterexample : ¬ hookAfterAttach s1Html.trace := by decide

/-- C8 (amended): when `getOrCreateLabel` constructs a new element (cache
miss and no matching external element), both variants first assign the
element's id and the structural class tag `node` and store the element in
the cache last; the SVG variant attaches the element under the container
before invoking `onCreateLabel`, while the HTML variant invokes
`onCreateLabel` before attaching the element under the container. -/
theorem getOrCreateLabel_creation_order {cfg : Config} {s : DomState} {n : LNode} {c : Nat}
    (h1 : (s.labels.lookup n.id).getD none = none)
    (h2 : s.byId n.id = none)
    (h3 : resolveContainer cfg s = some c) :
    (∀ e : Nat, ∀ s1 : DomState, getOrCreateLabelHTML cfg s n = some (e, s1) →
      e = s.nextElem ∧
      s1.trace = s.trace ++ [Event.assignId e n.id, Event.assignClass e "node",
                             Event.createHook n.id e, Event.attach e c,
                             Event.store n.id e]) ∧
    (∀ e : Nat, ∀ s1 : DomState, getOrCreateLabelSVG cfg s n = some (e, s1) →
      e = s.nextElem ∧
      s1.trace = s.trace ++ [Event.assignId e n.id, Event.assignClass e "node",
                             Event.attach e c, Event.createHook n.id e,
                             Event.store n.id e]) := by
  constructor
  · intro e s1 h
    rw [goc_html_create h1 h2 h3] at h
    simp at h
    refine ⟨h.1.symm, ?_⟩
    rw [← h.2, h.1]
  · intro e s1 h
    rw [goc_svg_create h1 h2 h3] at h
    simp at h
    refine ⟨h.1.symm, ?_⟩
    rw [← h.2, h.1]

theorem getOrCreateLabel_creation_order_witness :
    s1Html.trace = docState.trace ++
      [Event.assignId 0 "n1", Event.assignClass 0 "node",
       Event.createHook "n1" 0, Event.attach 0 100, Event.store "n1" 0] ∧
    s1Svg.trace = docState.trace ++
      [Event.assignId 0 "n1", Event.assignClass 0 "node",
       Event.attach 0 100, Event.createHook "n1" 0, Event.store "n1" 0] :=
  ⟨((@getOrCreateLabel_creation_order cfg0 docState node1 100
      rfl (by decide) (by decide)).1 0 s1Html rfl).2,
   ((@getOrCreateLabel_creation_order cfg0 docState node1 100
      rfl (by decide) (by decide)).2 0 s1Svg rfl).2⟩

/-- C4: `fitsInCanvas` implements the half-open bounds
`[0, width) × [0, height)`: it returns true exactly when
`0 ≤ x < width` and `0 ≤ y < height`; in particular `(0,0)` fits a
100×50 surface, while `(100,0)` and `(-1,0)` do not. -/
theorem fitsInCanvas_halfOpen :
    (∀ pos : Pos, ∀ canvas : Canvas, fitsInCanvas pos canvas = true ↔
      (0 ≤ pos.x ∧ pos.x < canvas.size.width ∧ 0 ≤ pos.y ∧ pos.y < canvas.size.height)) ∧
    fitsInCanvas ⟨0, 0⟩ ⟨⟨100, 50⟩⟩ = true ∧
    fitsInCanvas ⟨100, 0⟩ ⟨⟨100, 50⟩⟩ = false ∧
    fitsInCanvas ⟨-1, 0⟩ ⟨⟨100, 50⟩⟩ = false := by
  refine ⟨?_, by decide, by decide, by decide⟩
  intro pos canvas
  simp only [fitsInCanvas, Canvas.getSize]
  by_cases h : pos.x ≥ canvas.size.width ∨ pos.x < 0 ∨
      pos.y ≥ canvas.size.height ∨ pos.y < 0
  · rw [if_pos h]
    simp only [Bool.false_eq_true, false_iff]
    rcases h with h | h | h | h
    · rintro ⟨-, hx, -, -⟩; exact absurd hx (not_lt.mpr h)
    · rintro ⟨hx, -, -, -⟩; exact absurd h (not_lt.mpr hx)
    · rintro ⟨-, -, -, hy⟩; exact absurd hy (not_lt.mpr h)
    · rintro ⟨-, -, hy, -⟩; exact absurd h (not_lt.mpr hy)
  · rw [if_neg h]
    push_neg at h
    simp only [true_iff]
    exact ⟨h.2.1, h.1, h.2.2.2, h.2.2.1⟩

theorem lookup_setEntry_ne (l : List (String × Option Nat)) {k k' : String} (v : Option Nat)
    (h : k' ≠ k) : (setEntry l k v).lookup k' = l.lookup k' := by
  induction l with
  | nil => simp [setEntry, List.lookup, beq_eq_false_iff_ne.mpr h]
  | cons hd tl ih =>
    obtain ⟨k0, v0⟩ := hd
    by_cases h0 : k0 = k
    · subst h0
      simp only [setEntry, if_pos rfl]
      simp [List.lookup, beq_eq_false_iff_ne.mpr h]
    · simp only [setEntry, if_neg h0]
      by_cases hk : k' = k0
      · subst hk
        simp [List.lookup]
      · simp [List.lookup, beq_eq_false_iff_ne.mpr hk, ih]

/-- C5 counterexample: `disposeLabel` on an id with no cached element and
no external element of that id DOES alter the label cache, because the
`getLabel` call inside it memoizes the failed document lookup: the cache
gains the null entry `unknown-id ↦ null`. -/
theorem disposeLabel_cache_counterexample :
    (disposeLabel emptyState "unknown-id").labels ≠ emptyState.labels := by decide

/-- C5 (amended): calling `disposeLabel(id)` for an id with no cached
element and no existing external element of that id does not raise (the
embedded operation is total) and removes nothing: its only effect on the
state is that the failed `getElementById` lookup is memoized as a null
cache entry for that id — every other field and every other cache entry is
unchanged. -/
theorem disposeLabel_defensive {s : DomState} {id : String}
    (h1 : (s.labels.lookup id).getD none = none)
    (h2 : s.byId id = none) :
    disposeLabel s id = { s with labels := setEntry s.labels id none } ∧
    ∀ k, k ≠ id → (disposeLabel s id).labels.lookup k = s.labels.lookup k := by
  have hd : disposeLabel s id = { s with labels := setEntry s.labels id none } := by
    unfold disposeLabel
    rw [getLabel_miss h1, h2]
  refine ⟨hd, fun k hk => ?_⟩
  rw [hd]
  exact lookup_setEntry_ne s.labels none hk

theorem disposeLabel_defensive_witness :
    disposeLabel emptyState "unknown-id" =
      { emptyState with labels := setEntry emptyState.labels "unknown-id" none } ∧
    (disposeLabel emptyState "unknown-id").labels.lookup "other" =
      emptyState.labels.lookup "other" :=
  ⟨(@disposeLabel_defensive emptyState "unknown-id" rfl rfl).1,
   (@disposeLabel_defensive emptyState "unknown-id" rfl rfl).2
     "other" (by decide)⟩

/-- C10: a failed `getLabel` lookup stores a null entry and returns null,
but the null entry does not short-circuit later lookups: once an element
with that id exists in the document, the next `getLabel` call finds it,
memoizes it, and returns it. -/
theorem getLabel_absence_not_memoized {s : DomState} {id : String} (e : Nat)
    (h1 : (s.labels.lookup id).getD none = none)
    (h2 : s.byId id = none) :
    (getLabel s id).1 = none ∧
    ((getLabel s id).2).labels.lookup id = some none ∧
    (getLabel (extUpdate (getLabel s id).2 id e) id).1 = some e ∧
    ((getLabel (extUpdate (getLabel s id).2 id e) id).2).labels.lookup id =
      some (some e) := by
  have hg : getLabel s id = (none, { s with labels := setEntry s.labels id none }) := by
    rw [getLabel_miss h1, h2]
  rw [hg]
  have hlA : (setEntry s.labels id none).lookup id = some none := lookup_setEntry_self _ _ _
  have hmiss2 :
      (((extUpdate { s with labels := setEntry s.labels id none } id e).labels.lookup
        id).getD none) = none := by
    simp [extUpdate, hlA]
  have hg2 := getLabel_miss hmiss2
  have hby : (extUpdate { s with labels := setEntry s.labels id none } id e).byId id =
      some e := by
    simp [extUpdate, supd]
  rw [hby] at hg2
  rw [hg2]
  exact ⟨rfl, hlA, rfl, lookup_setEntry_self _ _ _⟩

theorem getLabel_absence_not_memoized_witness :
    (getLabel emptyState "n1").1 = none ∧
    ((getLabel emptyState "n1").2).labels.lookup "n1" = some none ∧
    (getLabel (extUpdate (getLabel emptyState "n1").2 "n1" 7) "n1").1 = some 7 ∧
    ((getLabel (extUpdate (getLabel emptyState "n1").2 "n1" 7) "n1").2).labels.lookup "n1" =
      some (some 7) :=
  @getLabel_absence_not_memoized emptyState "n1" 7 rfl rfl

theorem fupd2_idem (f : Nat → String → String) (e : Nat) (k v : String) :
    fupd2 (fupd2 f e k v) e k v = fupd2 f e k v := by
  funext e' k'
  by_cases h : e' = e ∧ k' = k <;> simp [fupd2, h]

theorem hideLabels_resolved {cfg : Config} {t : DomState} {c : Nat} (hide : Bool)
    (h : t.labelContainer = some c) :
    hideLabels cfg hide t = some { setStyle { t with labelContainer := some c } c "display"
      (if hide then "none" else "") with labelsHidden := hide } := by
  unfold hideLabels getLabelContainer resolveContainer
  rw [h]

/-- Updating `labelContainer` with the value it already holds leaves the
state unchanged. -/
theorem setContainer_self {t : DomState} {c : Nat} (h : t.labelContainer = some c) :
    { t with labelContainer := some c } = t := by
  cases t
  simp at h
  rw [h]

theorem hideLabels_eq {cfg : Config} {t : DomState} {c : Nat} (hide : Bool)
    (h : t.labelContainer = some c) :
    hideLabels cfg hide t =
      some { setStyle t c "display" (if hide then "none" else "") with labelsHidden := hide } := by
  rw [hideLabels_resolved hide h, setContainer_self h]

theorem setStyle_hidden_idem (t : DomState) (e : Nat) (k v : String) (b : Bool) :
    { setStyle { setStyle t e k v with labelsHidden := b } e k v with labelsHidden := b } =
      { setStyle t e k v with labelsHidden := b } := by
  cases t
  simp [setStyle, fupd2_idem]

/-- C9: `hideLabels(true)` hides the container and records
`labelsHidden = true`; a second `hideLabels(true)` changes nothing (it
returns the identical state); a subsequent `hideLabels(false)` restores the
container's display and records `labelsHidden = false`. -/
theorem hideLabels_idempotent {cfg : Config} {s s1 : DomState} {c : Nat}
    (h1 : hideLabels cfg true s = some s1)
    (h2 : s1.labelContainer = some c) :
    s1.labelsHidden = true ∧
    s1.styles c "display" = "none" ∧
    hideLabels cfg true s1 = some s1 ∧
    (∀ s2 : DomState, hideLabels cfg false s1 = some s2 →
      s2.labelsHidden = false ∧ s2.styles c "display" = "") := by
  cases hr : resolveContainer cfg s with
  | none =>
    unfold hideLabels getLabelContainer at h1
    rw [hr] at h1
    simp at h1
  | some c0 =>
    have h1' : hideLabels cfg true s =
        some { setStyle { s with labelContainer := some c0 } c0 "display" "none"
               with labelsHidden := true } := by
      unfold hideLabels getLabelContainer
      rw [hr]
      rfl
    rw [h1] at h1'
    have hs1 := Option.some.inj h1'
    subst hs1
    have hc : c0 = c := by simpa [setStyle] using h2
    subst hc
    refine ⟨rfl, by simp [setStyle, fupd2], ?_, ?_⟩
    · rw [hideLabels_eq true rfl]
      exact congrArg some
        (setStyle_hidden_idem { s with labelContainer := some c0 } c0 "display" "none" true)
    · intro s2 hs2
      rw [hideLabels_eq false rfl] at hs2
      have hs2' := Option.some.inj hs2
      subst hs2'
      exact ⟨rfl, by simp [setStyle, fupd2]⟩

/-- The state after hiding all labels of `docState`. -/
def s1Hide : DomState := (hideLabels cfg0 true docState).getD emptyState

/-- The state after showing the labels of `s1Hide` again. -/
def s2Show : DomState := (hideLabels cfg0 false s1Hide).getD emptyState

theorem hideLabels_idempotent_witness :
    s1Hide.labelsHidden = true ∧
    s1Hide.styles 100 "display" = "none" ∧
    hideLabels cfg0 true s1Hide = some s1Hide ∧
    s2Show.labelsHidden = false ∧
    s2Show.styles 100 "display" = "" := by
  have H := @hideLabels_idempotent cfg0 docState s1Hide 100 rfl rfl
  exact ⟨H.1, H.2.1, H.2.2.1, (H.2.2.2 s2Show rfl).1, (H.2.2.2 s2Show rfl).2⟩

theorem eraseKey_setEntry (l : List (String × Option Nat)) (k : String) (v : Option Nat) :
    eraseKey (setEntry l k v) k = eraseKey l k := by
  induction l with
  | nil => simp [setEntry, eraseKey]
  | cons hd tl ih =>
    obtain ⟨k0, v0⟩ := hd
    by_cases h0 : k0 = k
    · subst h0
      simp [setEntry, eraseKey]
    · simp only [setEntry, if_neg h0, eraseKey, List.filter_cons]
      have : (!(k0 == k)) = true := by simp [beq_eq_false_iff_ne.mpr h0]
      simp only [this, if_pos]
      rw [← eraseKey, ← eraseKey, ih]

theorem getLabel_inv (s : DomState) (id : String) :
    (getLabel s id).2 = s ∨
    (getLabel s id).2 = { s with labels := setEntry s.labels id (s.byId id) } := by
  unfold getLabel
  cases s.labels.lookup id with
  | none => right; rfl
  | some o =>
    cases o with
    | none => right; rfl
    | some e => left; rfl

theorem disposeLabel_labels (s : DomState) (id : String) :
    (disposeLabel s id).labels = s.labels ∨
    (disposeLabel s id).labels = setEntry s.labels id (s.byId id) := by
  have hinv := getLabel_inv s id
  unfold disposeLabel
  cases hg : getLabel s id with
  | mk r s1 =>
    rw [hg] at hinv
    simp only at hinv
    have hl : (match (r, s1) with
        | (some e, s1) => if (s1.parentNode e).isSome then removeElem s1 e else s1
        | (none, s1) => s1).labels = s1.labels := by
      cases r with
      | some e => by_cases hp : (s1.parentNode e).isSome <;> simp [hp, removeElem]
      | none => rfl
    rw [hl]
    cases hinv with
    | inl h => left; rw [h]
    | inr h => right; rw [h]

theorem clearStep_labels (hasNode : String → Bool) (force : Bool) (s : DomState) (id : String) :
    (clearStep hasNode force s id).labels =
      if force || !hasNode id then eraseKey s.labels id else s.labels := by
  by_cases hc : (force || !hasNode id) = true
  · simp only [clearStep, if_pos hc]
    rcases disposeLabel_labels s id with h | h
    · rw [h]
    · rw [h, eraseKey_setEntry]
  · simp only [clearStep, if_neg hc]

theorem clearLabels_foldl_labels (hasNode : String → Bool) (force : Bool) :
    ∀ (ks : List String) (s : DomState),
      (ks.foldl (clearStep hasNode force) s).labels =
        ks.foldl (fun l id => if force || !hasNode id then eraseKey l id else l) s.labels := by
  intro ks
  induction ks with
  | nil => intro s; rfl
  | cons k ks ih =>
    intro s
    simp only [List.foldl]
    rw [ih]
    congr 1
    exact clearStep_labels hasNode force s k

theorem foldl_eraseKey_filter (cond : String → Bool) :
    ∀ (ks : List String) (l : List (String × Option Nat)),
      ks.foldl (fun l id => if cond id then eraseKey l id else l) l =
        l.filter (fun p => !(keyIn ks p.1 && cond p.1)) := by
  intro ks
  induction ks with
  | nil =>
    intro l
    simp [keyIn]
  | cons k ks ih =>
    intro l
    simp only [List.foldl]
    rw [ih]
    by_cases hk : cond k = true
    · rw [if_pos hk]
      unfold eraseKey
      rw [List.filter_filter]
      apply List.filter_congr
      intro x _
      by_cases hx1 : x.1 = k
      · simp [keyIn, hx1, hk]
      · simp [keyIn, beq_eq_false_iff_ne.mpr hx1, beq_eq_false_iff_ne.mpr (Ne.symm hx1)]
    · rw [if_neg hk]
      apply List.filter_congr
      intro x _
      by_cases hx1 : x.1 = k
      · have hck : cond x.1 = false := by
          rw [hx1]
          exact Bool.not_eq_true _ ▸ (Bool.eq_false_iff.mpr hk)
        simp [keyIn, hck]
      · simp [keyIn, beq_eq_false_iff_ne.mpr (Ne.symm hx1)]

theorem clearLabels_labels (hasNode : String → Bool) (force : Bool) (s : DomState) :
    (clearLabels hasNode force s).labels =
      s.labels.filter (fun p => !(force || !hasNode p.1)) := by
  unfold clearLabels
  rw [clearLabels_foldl_labels, foldl_eraseKey_filter]
  apply List.filter_congr
  intro p hp
  have hin : keyIn (s.labels.map Prod.fst) p.1 = true := by
    simp only [keyIn, List.any_eq_true]
    exact ⟨p.1, List.mem_map_of_mem Prod.fst hp, by simp⟩
  rw [hin]
  simp

/-- C3: `clearLabels(force)` removes exactly the cache entries whose id
satisfies `force OR not graph.hasNode(id)` (the surviving cache is the
filter of the old one by the complementary predicate); consequently
`clearLabels(true)` empties the cache, and after `clearLabels(false)`
every remaining cached id is a node of the graph. -/
theorem clearLabels_consistency (hasNode : String → Bool) (force : Bool) (s : DomState) :
    (clearLabels hasNode force s).labels =
      s.labels.filter (fun p => !(force || !hasNode p.1)) ∧
    (clearLabels hasNode true s).labels = [] ∧
    ((clearLabels hasNode false s).labels.all (fun p => hasNode p.1)) = true := by
  refine ⟨clearLabels_labels hasNode force s, ?_, ?_⟩
  · rw [clearLabels_labels]
    simp
  · rw [clearLabels_labels]
    simp [List.all_eq_true, List.mem_filter]

theorem setStyle_trace (s : DomState) (e : Nat) (k v : String) :
    (setStyle s e k v).trace = s.trace := rfl

theorem setTransitionProps_trace (s : DomState) (e : Nat) (pv : String) (d : Nat) :
    (setTransitionProps s e pv d).trace = s.trace := by
  simp only [setTransitionProps, prefixesStyles, List.foldl, setStyle]

theorem createLabelHTML_countBefore {cfg : Config} {s s1 : DomState} {n : LNode} {e : Nat}
    (h : createLabelHTML cfg s n = some (e, s1)) (id : String) :
    countBeforeHook s1.trace id = countBeforeHook s.trace id := by
  unfold createLabelHTML at h
  cases hc : resolveContainer cfg s with
  | none => rw [hc] at h; simp at h
  | some c =>
    rw [hc] at h
    simp at h
    rw [← h.2]
    simp [countBeforeHook, List.countP_append, List.countP_cons, isBeforeHookFor]

theorem getLabel_snd_trace (s : DomState) (id : String) :
    ((getLabel s id).2).trace = s.trace := by
  rcases getLabel_inv s id with h | h <;> rw [h]

theorem getOrCreateLabelHTML_countBefore {cfg : Config} {s s1 : DomState} {n : LNode} {e : Nat}
    (h : getOrCreateLabelHTML cfg s n = some (e, s1)) (id : String) :
    countBeforeHook s1.trace id = countBeforeHook s.trace id := by
  have htr := getLabel_snd_trace s n.id
  unfold getOrCreateLabelHTML getOrCreateWith at h
  cases hg : getLabel s n.id with
  | mk r sA =>
    rw [hg] at htr
    cases r with
    | some e0 =>
      rw [hg] at h
      simp at h
      rw [← h.2, htr]
    | none =>
      rw [hg] at h
      cases hb : sA.byId n.id with
      | some e0 =>
        simp only [hb] at h
        simp at h
        rw [← h.2, htr]
      | none =>
        simp only [hb] at h
        rw [show countBeforeHook s.trace id = countBeforeHook sA.trace id from (htr ▸ rfl)]
        exact createLabelHTML_countBefore h id

theorem countBefore_snoc_hook (t : List Event) (id : String) (e : Nat) :
    countBeforeHook (t ++ [Event.beforeHook id e]) id = countBeforeHook t id + 1 := by
  simp [countBeforeHook, List.countP_append, List.countP_cons, isBeforeHookFor]

theorem countBefore_addTransitionEnd (e : Nat) (id : String) :
    (prefixes.map (fun _ => Event.addTransitionEnd e)).countP (isBeforeHookFor id) = 0 := by
  simp [prefixes, isBeforeHookFor]

theorem countBefore_append_hook (t extra : List Event) (id : String) (e : Nat)
    (hx : extra.countP (isBeforeHookFor id) = 0) :
    countBeforeHook ((t ++ extra) ++ [Event.beforeHook id e]) id =
      countBeforeHook t id + 1 := by
  simp [countBeforeHook, List.countP_append, hx, List.countP_cons, isBeforeHookFor]

/-- C6 counterexample: with `useCSS3` disabled the HTML variant's
`prepareForAnimation` returns before invoking `onBeforeAnimateLabel`: the
call succeeds, leaves the state (hence the trace) unchanged, and records
zero hook invocations rather than the claimed one per call. -/
theorem onBeforeAnimateLabel_counterexample :
    prepareForAnimationHTML { labelContainer := "label-container", useCSS3 := false }
        ⟨⟨200, 100⟩⟩ node1 ⟨300⟩ docState = some docState ∧
    countBeforeHook docState.trace "n1" = 0 :=
  ⟨rfl, rfl⟩

/-- C6 (amended): in the HTML variant, when `useCSS3` is disabled
`prepareForAnimation` returns immediately without invoking
`onBeforeAnimateLabel`; when `useCSS3` is enabled, every successful
`prepareForAnimation` call invokes `onBeforeAnimateLabel` exactly once,
regardless of which (if any) transition branch is taken. -/
theorem onBeforeAnimateLabel_invocation (cfg : Config) (canvas : Canvas) (n : LNode)
    (opt : AnimOpt) (s : DomState) :
    (cfg.useCSS3 = false → prepareForAnimationHTML cfg canvas n opt s = some s) ∧
    (cfg.useCSS3 = true → ∀ s' : DomState,
      prepareForAnimationHTML cfg canvas n opt s = some s' →
      countBeforeHook s'.trace n.id = countBeforeHook s.trace n.id + 1) := by
  constructor
  · intro hf
    unfold prepareForAnimationHTML
    rw [hf]
    rfl
  · intro ht s' hp
    unfold prepareForAnimationHTML at hp
    rw [ht] at hp
    rw [if_pos rfl] at hp
    cases hg : getOrCreateLabelHTML cfg s n with
    | none => rw [hg] at hp; simp at hp
    | some pr =>
      obtain ⟨e, s1⟩ := pr
      have hs1 : countBeforeHook s1.trace n.id = countBeforeHook s.trace n.id :=
        getOrCreateLabelHTML_countBefore hg n.id
      rw [hg] at hp
      simp only at hp
      by_cases ha : n.alpha ≠ n.alphaEnd
      · rw [if_pos ha] at hp
        by_cases hb : n.alphaEnd = 0 ∧ n.alpha = 1
        · rw [if_pos hb] at hp
          have hQ := Option.some.inj hp
          have hQtr : s'.trace =
              (s1.trace ++ prefixes.map fun _ => Event.addTransitionEnd e) ++
                [Event.beforeHook n.id e] := by
            rw [← hQ]
            simp only [setStyle_trace, setTransitionProps_trace]
          rw [hQtr, countBefore_append_hook _ _ _ _ (countBefore_addTransitionEnd e n.id), hs1]
        · rw [if_neg hb] at hp
          have hQ := Option.some.inj hp
          have hQtr : s'.trace = s1.trace ++ [Event.beforeHook n.id e] := by
            rw [← hQ]
            simp only [setStyle_trace, setTransitionProps_trace]
          rw [hQtr, countBefore_snoc_hook, hs1]
      · rw [if_neg ha] at hp
        by_cases hc : n.posEndX ≠ n.posStartX ∨ n.posEndY ≠ n.posStartY ∨
            n.widthStart ≠ n.widthEnd ∨ n.heightStart ≠ n.heightEnd
        · rw [if_pos hc] at hp
          have hQ := Option.some.inj hp
          have hQtr : s'.trace = s1.trace ++ [Event.beforeHook n.id e] := by
            rw [← hQ]
            simp only [setStyle_trace, setTransitionProps_trace]
          rw [hQtr, countBefore_snoc_hook, hs1]
        · rw [if_neg hc] at hp
          have hQ := Option.some.inj hp
          have hQtr : s'.trace = s1.trace ++ [Event.beforeHook n.id e] := by
            rw [← hQ]
          rw [hQtr, countBefore_snoc_hook, hs1]

/-- The state after a geometry-branch `prepareForAnimation` run on
`docState` for `node1`. -/
def sPrep : DomState :=
  (prepareForAnimationHTML cfg0 ⟨⟨200, 100⟩⟩ node1 ⟨300⟩ docState).getD emptyState

theorem onBeforeAnimateLabel_invocation_witness :
    prepareForAnimationHTML { labelContainer := "label-container", useCSS3 := false }
        ⟨⟨200, 100⟩⟩ node1 ⟨300⟩ docState = some docState ∧
    countBeforeHook sPrep.trace "n1" = countBeforeHook docState.trace "n1" + 1 :=
  ⟨(onBeforeAnimateLabel_invocation
      { labelContainer := "label-container", useCSS3 := false }
      ⟨⟨200, 100⟩⟩ node1 ⟨300⟩ docState).1 rfl,
   (onBeforeAnimateLabel_invocation cfg0 ⟨⟨200, 100⟩⟩ node1 ⟨300⟩ docState).2 rfl sPrep rfl⟩

theorem setStyle_styles_self (s : DomState) (e : Nat) (k v : String) :
    (setStyle s e k v).styles e k = v := by
  simp [setStyle, fupd2]

theorem setStyle_styles_ne (s : DomState) (e : Nat) (k v : String) (e' : Nat) (k' : String)
    (h : k' ≠ k) : (setStyle s e k v).styles e' k' = s.styles e' k' := by
  simp [setStyle, fupd2, h]

set_option maxHeartbeats 1000000 in
theorem setTransitionProps_styles (s : DomState) (e : Nat) (pv : String) (d : Nat) :
    ∀ p ∈ prefixesStyles,
      (setTransitionProps s e pv d).styles e (p ++ "transition-property") = pv ∧
      (setTransitionProps s e pv d).styles e (p ++ "transition-duration") =
        toString d ++ "ms" ∧
      (setTransitionProps s e pv d).styles e (p ++ "transition-delay") = "200ms" ∧
      (setTransitionProps s e pv d).styles e (p ++ "transition-timing-function") =
        "ease-in-out" := by
  intro p hp
  fin_cases hp <;>
    refine ⟨?_, ?_, ?_, ?_⟩ <;>
      simp [setTransitionProps, prefixesStyles, List.foldl, setStyle, fupd2]

theorem styles_after_geometry (t : DomState) (e : Nat) (vt vl vw vh : String) (k : String)
    (h1 : k ≠ "top") (h2 : k ≠ "left") (h3 : k ≠ "width") (h4 : k ≠ "height") :
    (setStyle (setStyle (setStyle (setStyle t e "top" vt) e "left" vl) e "width" vw)
      e "height" vh).styles e k = t.styles e k := by
  rw [setStyle_styles_ne _ _ _ _ _ _ h4, setStyle_styles_ne _ _ _ _ _ _ h3,
      setStyle_styles_ne _ _ _ _ _ _ h2, setStyle_styles_ne _ _ _ _ _ _ h1]

/-- C7: in the HTML variant's `prepareForAnimation`, when start and end
opacity are equal but position or size differs, the element's
vendor-prefixed transition-property is set to the joined `css3Props`
list — animating position (`top`, `left`) and size (`width`, `height`)
simultaneously — with the configured duration and the fixed 200ms delay,
and the element's final `top`/`left`/`width`/`height` are then set
directly from the end-state geometry. -/
theorem prepareForAnimation_geometry_branch {cfg : Config} {canvas : Canvas} {n : LNode}
    {opt : AnimOpt} {s s1 s' : DomState} {e : Nat}
    (hcss : cfg.useCSS3 = true)
    (halpha : n.alpha = n.alphaEnd)
    (hdiff : n.posEndX ≠ n.posStartX ∨ n.posEndY ≠ n.posStartY ∨
             n.widthStart ≠ n.widthEnd ∨ n.heightStart ≠ n.heightEnd)
    (hgoc : getOrCreateLabelHTML cfg s n = some (e, s1))
    (hprep : prepareForAnimationHTML cfg canvas n opt s = some s') :
    (∀ p ∈ prefixesStyles,
      s'.styles e (p ++ "transition-property") = String.intercalate "," css3Props ∧
      s'.styles e (p ++ "transition-duration") = toString opt.duration ++ "ms" ∧
      s'.styles e (p ++ "transition-delay") = "200ms" ∧
      s'.styles e (p ++ "transition-timing-function") = "ease-in-out") ∧
    s'.styles e "top" = toString (jsShr0 (n.posEndY + canvas.getSize.height / 2)) ++ "px" ∧
    s'.styles e "left" = toString (jsShr0 (n.posEndX + canvas.getSize.width / 2)) ++ "px" ∧
    s'.styles e "width" = toString (jsShr0 n.widthEnd) ++ "px" ∧
    s'.styles e "height" = toString (jsShr0 n.heightEnd) ++ "px" := by
  unfold prepareForAnimationHTML at hprep
  rw [hcss, if_pos rfl, hgoc] at hprep
  simp only at hprep
  rw [if_neg (fun hne => hne halpha), if_pos hdiff] at hprep
  have hQ := Option.some.inj hprep
  have hsty : s'.styles =
      (setStyle (setStyle (setStyle (setStyle
        (setTransitionProps s1 e (String.intercalate "," css3Props) opt.duration)
        e "top" (toString (jsShr0 (n.posEndY + canvas.getSize.height / 2)) ++ "px"))
        e "left" (toString (jsShr0 (n.posEndX + canvas.getSize.width / 2)) ++ "px"))
        e "width" (toString (jsShr0 n.widthEnd) ++ "px"))
        e "height" (toString (jsShr0 n.heightEnd) ++ "px")).styles := by
    rw [← hQ]
  refine ⟨?_, ?_, ?_, ?_, ?_⟩
  · intro p hp
    have hgeo : ∀ k : String, k ≠ "top" → k ≠ "left" → k ≠ "width" → k ≠ "height" →
        s'.styles e k = (setTransitionProps s1 e (String.intercalate "," css3Props)
          opt.duration).styles e k := by
      intro k h1 h2 h3 h4
      rw [hsty]
      exact styles_after_geometry _ _ _ _ _ _ _ h1 h2 h3 h4
    have hT := setTransitionProps_styles s1 e (String.intercalate "," css3Props)
      opt.duration p hp
    fin_cases hp <;>
      exact ⟨by rw [hgeo _ (by decide) (by decide) (by decide) (by decide)]; exact hT.1,
             by rw [hgeo _ (by decide) (by decide) (by decide) (by decide)]; exact hT.2.1,
             by rw [hgeo _ (by decide) (by decide) (by decide) (by decide)]; exact hT.2.2.1,
             by rw [hgeo _ (by decide) (by decide) (by decide) (by decide)]; exact hT.2.2.2⟩
  · rw [hsty, setStyle_styles_ne _ _ _ _ _ _ (by decide), setStyle_styles_ne _ _ _ _ _ _
      (by decide), setStyle_styles_ne _ _ _ _ _ _ (by decide), setStyle_styles_self]
  · rw [hsty, setStyle_styles_ne _ _ _ _ _ _ (by decide), setStyle_styles_ne _ _ _ _ _ _
      (by decide), setStyle_styles_self]
  · rw [hsty, setStyle_styles_ne _ _ _ _ _ _ (by decide), setStyle_styles_self]
  · rw [hsty, setStyle_styles_self]

theorem prepareForAnimation_geometry_branch_witness :
    sPrep.styles 0 ("-webkit-" ++ "transition-property") = String.intercalate "," css3Props ∧
    sPrep.styles 0 ("-webkit-" ++ "transition-duration") = toString (300 : Nat) ++ "ms" ∧
    sPrep.styles 0 ("-webkit-" ++ "transition-delay") = "200ms" ∧
    sPrep.styles 0 "top" = toString (jsShr0 ((20 : Rat) + (100 : Rat) / 2)) ++ "px" ∧
    sPrep.styles 0 "height" = toString (jsShr0 (16 : Rat)) ++ "px" := by
  have H := @prepareForAnimation_geometry_branch cfg0 ⟨⟨200, 100⟩⟩
    node1 ⟨300⟩ docState s1Html sPrep 0
    rfl rfl (Or.inl (by decide)) rfl rfl
  have hw := H.1 "-webkit-" (by simp [prefixesStyles])
  exact ⟨hw.1, hw.2.1, hw.2.2.1, H.2.1, H.2.2.2.2⟩
